import Mathlib

/-!
Verification development for the `entity` repository: a TypeScript package
consisting solely of structural type declarations (entity, pair, rich-entity,
repository and service shapes). We give a shallow embedding of

* the runtime values a TypeScript program may supply for these shapes,
* the type expressions occurring in the declarations,
* the field catalog of every declared interface, transcribed from the source,
* the method-signature catalog of every repository/service contract,
* the list of top-level declarations of each source file,

and prove structural properties of the declared contracts against them.
-/

/-! ## Values

A universe of JavaScript runtime values, sufficient for the declared shapes.
Functions are opaque (only their presence matters to the contracts) and a
`Date` is abstracted to its timestamp. -/

inductive TSVal where
  | str : String → TSVal
  | num : Int → TSVal
  | boolean : Bool → TSVal
  | nullV : TSVal
  | undef : TSVal
  | date : Int → TSVal
  | func : TSVal
  | arr : List TSVal → TSVal
  | obj : List (String × TSVal) → TSVal

/-- First binding of `key` in an object literal, as JavaScript property lookup. -/
def lookupField : List (String × TSVal) → String → Option TSVal
  | [], _ => none
  | (k, v) :: rest, key => if k = key then some v else lookupField rest key

def isUndef : TSVal → Bool
  | .undef => true
  | _ => false

/-! ## Type expressions

Syntax of the TypeScript type expressions used by the declarations.
`tvar` is a reference to a generic parameter (`I`, `E`, `N`, `P`, `V`, `C`,
`U`, `R`, `F`); `optionalProps t` is the utility type making every property
of `t` optional; `iface n a` is a reference to the interface named `n`
applied to one type argument; `recordOf k v` is the mapped record type. -/

inductive Ty where
  | string : Ty
  | number : Ty
  | boolean : Ty
  | dateTy : Ty
  | unknownTy : Ty
  | anyTy : Ty
  | fn : Ty
  | tvar : String → Ty
  | promise : Ty → Ty
  | array : Ty → Ty
  | union : Ty → Ty → Ty
  | optionalProps : Ty → Ty
  | recordOf : Ty → Ty → Ty
  | iface : String → Ty → Ty
deriving DecidableEq, Repr

/-- `sats t v` decides whether the value `v` inhabits the closed type `t`.
Only the constructors that appear in value-level positions of the declared
shapes are given a semantics; `tvar`, `promise`, `optionalProps` and `iface`
occur solely inside method signatures, which this development compares
syntactically, so they accept no value here. Keys of `recordOf` are always
`string` in the source, which every object key satisfies by construction. -/
def sats (t : Ty) (v : TSVal) : Bool :=
  match t with
  | .string => match v with | .str _ => true | _ => false
  | .number => match v with | .num _ => true | _ => false
  | .boolean => match v with | .boolean _ => true | _ => false
  | .dateTy => match v with | .date _ => true | _ => false
  | .unknownTy => true
  | .anyTy => true
  | .fn => match v with | .func => true | _ => false
  | .tvar _ => false
  | .promise _ => false
  | .array a =>
      match v with
      | .arr xs => xs.all (fun x => sats a x)
      | _ => false
  | .union a b => sats a v || sats b v
  | .optionalProps _ => false
  | .recordOf _ vt =>
      match v with
      | .obj kvs => kvs.all (fun kv => sats vt kv.2)
      | _ => false
  | .iface _ _ => false

/-! ## Interface field catalogs -/

/-- One declared property of an interface: its name, declared type, and
whether the declaration marks it optional (`?`). -/
structure FieldDecl where
  name : String
  ty : Ty
  optional : Bool
deriving DecidableEq, Repr

/-- A declared property is satisfied by an object: absent is allowed when
optional, and an explicit `undefined` is accepted for an optional property,
as under the default TypeScript configuration. -/
def fieldOk (kvs : List (String × TSVal)) (f : FieldDecl) : Bool :=
  match lookupField kvs f.name with
  | none => f.optional
  | some x => sats f.ty x || (f.optional && isUndef x)

/-- Structural conformance of a value to an interface given by its field
catalog. All the declared interfaces extend `Record<string, unknown>` or
`Record<string, any>` (through `EntityIdLike` resp. `BaseIdLike`), so
properties outside the catalog are unconstrained. -/
def conformsTo (fields : List FieldDecl) (v : TSVal) : Bool :=
  match v with
  | .obj kvs => fields.all (fun f => fieldOk kvs f)
  | _ => false

/-! ### Transcription of the shape declarations (src/index.types.ts)

A generic TypeScript interface becomes a Lean function from the type
arguments to the field catalog; `extends` becomes list append. -/

/-- `export type ID = string | number` -/
def ID : Ty := .union .string .number

/-- `export type DefId = string` -/
def DefId : Ty := .string

/-- `export type NAME = string | Record<string, string>` -/
def NAME : Ty := .union .string (.recordOf .string .string)

/-- `export type DefName = string` -/
def DefName : Ty := .string

/-- `export type XX = unknown` -/
def XX : Ty := .unknownTy

/-- `export type GivenId<I extends ID = DefId> = I|Partial<EntityIdLike<I>>` -/
def GivenId (tyI : Ty) : Ty := .union tyI (.optionalProps (.iface "EntityIdLike" tyI))

/-- `export type GivenIds<I extends ID = DefId> = Array<GivenId<I>>` -/
def GivenIds (tyI : Ty) : Ty := .array (GivenId tyI)

namespace EntityIdLike

/-- `interface EntityIdLike<I> extends Record<string, unknown>`:
`id?: I` and `toJSON?(): unknown`. -/
def fields (tyI : Ty) : List FieldDecl :=
  [⟨"id", tyI, true⟩, ⟨"toJSON", .fn, true⟩]

/-- The `extends Record<string, unknown>` clause of `EntityIdLike`. -/
def indexSignature : Ty := .recordOf .string .unknownTy

end EntityIdLike

namespace EntityLike

/-- `interface EntityLike<I, N> extends EntityIdLike<I>`: adds `name?: N`. -/
def fields (tyI tyN : Ty) : List FieldDecl :=
  EntityIdLike.fields tyI ++ [⟨"name", tyN, true⟩]

end EntityLike

namespace PairLike

/-- `interface PairLike<I> extends EntityIdLike<I>`: adds `name?: string`. -/
def fields (tyI : Ty) : List FieldDecl :=
  EntityIdLike.fields tyI ++ [⟨"name", .string, true⟩]

end PairLike

namespace RichEntityLike

/-- `interface RichEntityLike<I, N> extends EntityLike<I, N>`: adds the nine
optional system properties declared at src/index.types.ts lines 65-109. -/
def fields (tyI tyN : Ty) : List FieldDecl :=
  EntityLike.fields tyI tyN ++
    [⟨"createdAt", .dateTy, true⟩,
     ⟨"createdBy", .unknownTy, true⟩,
     ⟨"updatedAt", .dateTy, true⟩,
     ⟨"updatedBy", .unknownTy, true⟩,
     ⟨"$version", .number, true⟩,
     ⟨"$release", .number, true⟩,
     ⟨"$irregulars", .array .string, true⟩,
     ⟨"$trash", .unknownTy, true⟩,
     ⟨"$search", .unknownTy, true⟩]

end RichEntityLike

/-! ### Transcription of the parallel `Base*` declaration family -/

namespace BaseIdLike

/-- `interface BaseIdLike<I = string> extends Record<string, any>`:
`id?: I` and `toJSON?(): unknown`. -/
def fields (tyI : Ty) : List FieldDecl :=
  [⟨"id", tyI, true⟩, ⟨"toJSON", .fn, true⟩]

/-- The `extends Record<string, any>` clause of `BaseIdLike`. -/
def indexSignature : Ty := .recordOf .string .anyTy

end BaseIdLike

namespace BaseEntityLike

/-- `interface BaseEntityLike<I, N> extends BaseIdLike<I>`: adds `name?: N`. -/
def fields (tyI tyN : Ty) : List FieldDecl :=
  BaseIdLike.fields tyI ++ [⟨"name", tyN, true⟩]

end BaseEntityLike

namespace BasePairLike

/-- `interface BasePairLike<I> extends BaseIdLike<I>`: adds `name?: string`. -/
def fields (tyI : Ty) : List FieldDecl :=
  BaseIdLike.fields tyI ++ [⟨"name", .string, true⟩]

end BasePairLike

namespace BaseRichEntityLike

/-- `interface BaseRichEntityLike<I, N> extends BaseEntityLike<I, N>`: adds
the same nine optional system properties as `RichEntityLike`. -/
def fields (tyI tyN : Ty) : List FieldDecl :=
  BaseEntityLike.fields tyI tyN ++
    [⟨"createdAt", .dateTy, true⟩,
     ⟨"createdBy", .unknownTy, true⟩,
     ⟨"updatedAt", .dateTy, true⟩,
     ⟨"updatedBy", .unknownTy, true⟩,
     ⟨"$version", .number, true⟩,
     ⟨"$release", .number, true⟩,
     ⟨"$irregulars", .array .string, true⟩,
     ⟨"$trash", .unknownTy, true⟩,
     ⟨"$search", .unknownTy, true⟩]

end BaseRichEntityLike


/-! ## Method-signature catalogs

The repository and service contracts are catalogs of optional method
signatures. Each signature is transcribed as data: parameter list (name,
declared type, optional flag), return type, the optionality of the method
itself, and the exception names referenced by `@throws` tags in its doc
comment (documentation only; nothing is thrown by the package). -/

structure Param where
  name : String
  ty : Ty
  optional : Bool
deriving DecidableEq, Repr

structure Method where
  name : String
  params : List Param
  ret : Ty
  optional : Bool
  throwsDoc : List String
deriving DecidableEq, Repr

namespace RepositoryLike

/-- `interface RepositoryLike<I extends ID, E extends EntityLike<I>, R = XX, F = XX>`
(src/index.types.ts lines 118-187), in source order. -/
def methods : List Method :=
  [⟨"createOne", [⟨"req", .tvar "R", false⟩, ⟨"doc", .optionalProps (.tvar "E"), false⟩], .promise (.tvar "E"), true, []⟩,
   ⟨"updateById", [⟨"req", .tvar "R", false⟩, ⟨"doc", .optionalProps (.tvar "E"), false⟩], .promise (.tvar "E"), true, []⟩,
   ⟨"setById", [⟨"req", .tvar "R", false⟩, ⟨"doc", .optionalProps (.tvar "E"), false⟩], .promise (.tvar "E"), true, []⟩,
   ⟨"findById", [⟨"req", .tvar "R", false⟩, ⟨"id", .tvar "I", false⟩], .promise (.tvar "E"), true, []⟩,
   ⟨"findBySlug", [⟨"req", .tvar "R", false⟩, ⟨"slug", .string, false⟩], .promise (.tvar "E"), true, []⟩,
   ⟨"findByIds", [⟨"req", .tvar "R", false⟩, ⟨"ids", .array (.tvar "I"), false⟩], .promise (.array (.tvar "E")), true, []⟩,
   ⟨"findMore", [⟨"req", .tvar "R", false⟩, ⟨"filter", .tvar "F", false⟩, ⟨"options", .unknownTy, true⟩], .promise (.array (.tvar "E")), true, []⟩,
   ⟨"deleteById", [⟨"req", .tvar "R", false⟩, ⟨"id", .tvar "I", false⟩], .promise (.tvar "E"), true, []⟩,
   ⟨"deleteByIds", [⟨"req", .tvar "R", false⟩, ⟨"ids", .array (.tvar "I"), false⟩], .promise .number, true, []⟩,
   ⟨"trashById", [⟨"req", .tvar "R", false⟩, ⟨"id", .tvar "I", false⟩, ⟨"trash", .unknownTy, true⟩], .promise (.tvar "E"), true, []⟩,
   ⟨"trashByIds", [⟨"req", .tvar "R", false⟩, ⟨"ids", .array (.tvar "I"), false⟩, ⟨"trash", .unknownTy, true⟩], .promise .number, true, []⟩]

end RepositoryLike

namespace BaseRepo

/-- `interface BaseRepo<E extends BaseEntityLike<I, N>, I = string, N = string, R = X, F = X>`
(base-repo source file lines 63-132), in source order. Its `findBySlug`
takes `slug: I`, unlike the `slug: string` of `RepositoryLike`. -/
def methods : List Method :=
  [⟨"createOne", [⟨"req", .tvar "R", false⟩, ⟨"doc", .optionalProps (.tvar "E"), false⟩], .promise (.tvar "E"), true, []⟩,
   ⟨"updateById", [⟨"req", .tvar "R", false⟩, ⟨"doc", .optionalProps (.tvar "E"), false⟩], .promise (.tvar "E"), true, []⟩,
   ⟨"setById", [⟨"req", .tvar "R", false⟩, ⟨"doc", .optionalProps (.tvar "E"), false⟩], .promise (.tvar "E"), true, []⟩,
   ⟨"findById", [⟨"req", .tvar "R", false⟩, ⟨"id", .tvar "I", false⟩], .promise (.tvar "E"), true, []⟩,
   ⟨"findBySlug", [⟨"req", .tvar "R", false⟩, ⟨"slug", .tvar "I", false⟩], .promise (.tvar "E"), true, []⟩,
   ⟨"findByIds", [⟨"req", .tvar "R", false⟩, ⟨"ids", .array (.tvar "I"), false⟩], .promise (.array (.tvar "E")), true, []⟩,
   ⟨"findMore", [⟨"req", .tvar "R", false⟩, ⟨"filter", .tvar "F", false⟩, ⟨"options", .unknownTy, true⟩], .promise (.array (.tvar "E")), true, []⟩,
   ⟨"deleteById", [⟨"req", .tvar "R", false⟩, ⟨"id", .tvar "I", false⟩], .promise (.tvar "E"), true, []⟩,
   ⟨"deleteByIds", [⟨"req", .tvar "R", false⟩, ⟨"ids", .array (.tvar "I"), false⟩], .promise .number, true, []⟩,
   ⟨"trashById", [⟨"req", .tvar "R", false⟩, ⟨"id", .tvar "I", false⟩, ⟨"trash", .unknownTy, true⟩], .promise (.tvar "E"), true, []⟩,
   ⟨"trashByIds", [⟨"req", .tvar "R", false⟩, ⟨"ids", .array (.tvar "I"), false⟩, ⟨"trash", .unknownTy, true⟩], .promise .number, true, []⟩]

end BaseRepo

namespace ServiceBase

/-- `interface ServiceBase<I, E, P, V, C, U, R, F>` (src/index.types.ts
lines 218-300), in source order. -/
def methods : List Method :=
  [⟨"createOne", [⟨"req", .tvar "R", false⟩, ⟨"dto", .tvar "C", false⟩], .promise (.tvar "V"), true, []⟩,
   ⟨"prepareById", [⟨"req", .tvar "R", false⟩, ⟨"id", .tvar "I", true⟩], .promise (.tvar "V"), true, []⟩,
   ⟨"updateById", [⟨"req", .tvar "R", false⟩, ⟨"id", .tvar "I", false⟩, ⟨"dto", .tvar "U", false⟩], .promise (.tvar "V"), true, []⟩,
   ⟨"setById", [⟨"req", .tvar "R", false⟩, ⟨"id", .tvar "I", false⟩, ⟨"dto", .union (.optionalProps (.tvar "U")) (.optionalProps (.tvar "E")), false⟩], .promise (.tvar "V"), true, []⟩,
   ⟨"findById", [⟨"req", .tvar "R", false⟩, ⟨"id", .tvar "I", false⟩], .promise (.tvar "V"), true, []⟩,
   ⟨"findBySlug", [⟨"req", .tvar "R", false⟩, ⟨"slug", .string, false⟩], .promise (.tvar "V"), true, []⟩,
   ⟨"findByIds", [⟨"req", .tvar "R", false⟩, ⟨"ids", .array (.tvar "I"), false⟩], .promise (.array (.tvar "V")), true, []⟩,
   ⟨"findMore", [⟨"req", .tvar "R", false⟩, ⟨"filter", .tvar "F", false⟩, ⟨"options", .unknownTy, true⟩], .promise (.array (.tvar "V")), true, []⟩,
   ⟨"deleteById", [⟨"req", .tvar "R", false⟩, ⟨"id", .tvar "I", false⟩], .promise (.tvar "P"), true, []⟩,
   ⟨"deleteByIds", [⟨"req", .tvar "R", false⟩, ⟨"ids", .array (.tvar "I"), false⟩], .promise .number, true, []⟩,
   ⟨"trashById", [⟨"req", .tvar "R", false⟩, ⟨"id", .tvar "I", false⟩, ⟨"trash", .unknownTy, true⟩], .promise (.tvar "P"), true, []⟩,
   ⟨"trashByIds", [⟨"req", .tvar "R", false⟩, ⟨"ids", .array (.tvar "I"), false⟩, ⟨"trash", .unknownTy, true⟩], .promise (.tvar "P"), true, []⟩]

end ServiceBase

namespace ServicePair

/-- `interface ServicePair<I, E, P, R>` (src/index.types.ts lines 310-348). -/
def methods : List Method :=
  [⟨"toPair", [⟨"req", .tvar "R", false⟩, ⟨"doc", .tvar "E", false⟩, ⟨"variant", .string, true⟩], .promise (.tvar "P"), true, []⟩,
   ⟨"toPairs", [⟨"req", .tvar "R", false⟩, ⟨"docs", .array (.tvar "E"), false⟩, ⟨"variant", .string, true⟩], .promise (.array (.tvar "P")), true, []⟩,
   ⟨"fromPair", [⟨"req", .tvar "R", false⟩, ⟨"pair", .tvar "P", false⟩], .promise (.tvar "E"), true, []⟩,
   ⟨"fromPairs", [⟨"req", .tvar "R", false⟩, ⟨"pairs", .array (.tvar "P"), false⟩], .promise (.array (.tvar "E")), true, []⟩,
   ⟨"pairById", [⟨"req", .tvar "R", false⟩, ⟨"id", .tvar "I", false⟩], .promise (.tvar "P"), true, ["RecordNotFoundException"]⟩,
   ⟨"pairsByIds", [⟨"req", .tvar "R", false⟩, ⟨"ids", .array (.tvar "I"), false⟩], .promise (.array (.tvar "P")), true, []⟩,
   ⟨"pairsMore", [⟨"req", .tvar "R", false⟩, ⟨"query", .union .string .unknownTy, true⟩, ⟨"limit", .number, true⟩], .promise (.array (.tvar "P")), true, []⟩]

end ServicePair

namespace ServiceView

/-- `interface ServiceView<I, E, V, R>` (src/index.types.ts lines 358-375). -/
def methods : List Method :=
  [⟨"toView", [⟨"req", .tvar "R", false⟩, ⟨"doc", .tvar "E", false⟩, ⟨"variant", .string, true⟩], .promise (.tvar "V"), true, []⟩,
   ⟨"toViews", [⟨"req", .tvar "R", false⟩, ⟨"docs", .array (.tvar "E"), false⟩, ⟨"variant", .string, true⟩], .promise (.array (.tvar "V")), true, []⟩,
   ⟨"fromView", [⟨"req", .tvar "R", false⟩, ⟨"view", .tvar "V", false⟩], .promise (.tvar "E"), true, []⟩,
   ⟨"fromViews", [⟨"req", .tvar "R", false⟩, ⟨"views", .array (.tvar "V"), false⟩], .promise (.array (.tvar "E")), true, []⟩]

end ServiceView

namespace ServiceInternal

/-- `interface ServiceInternal<I, E, C, U, R, F>` (src/index.types.ts
lines 387-509), in source order. `GivenId (.tvar "I")` transcribes the
alias `GivenId<I>`. -/
def methods : List Method :=
  [⟨"$createOne", [⟨"req", .tvar "R", false⟩, ⟨"dto", .tvar "C", false⟩, ⟨"existingId", GivenId (.tvar "I"), true⟩], .promise (.tvar "E"), true, []⟩,
   ⟨"$prepareById", [⟨"req", .tvar "R", false⟩, ⟨"id", GivenId (.tvar "I"), false⟩], .promise (.tvar "E"), true, ["RecordNotFoundException"]⟩,
   ⟨"$updateById", [⟨"req", .tvar "R", false⟩, ⟨"id", GivenId (.tvar "I"), false⟩, ⟨"dto", .union (.tvar "U") (.optionalProps (.tvar "E")), false⟩], .promise (.tvar "E"), true, ["RecordNotFoundException"]⟩,
   ⟨"$setById", [⟨"req", .tvar "R", false⟩, ⟨"id", GivenId (.tvar "I"), false⟩, ⟨"dto", .union (.optionalProps (.tvar "U")) (.optionalProps (.tvar "E")), false⟩], .promise (.tvar "E"), true, ["RecordNotFoundException"]⟩,
   ⟨"$lookById", [⟨"req", .tvar "R", false⟩, ⟨"id", GivenId (.tvar "I"), false⟩, ⟨"throwing", .boolean, true⟩], .promise (.tvar "E"), true, ["RecordNotFoundException"]⟩,
   ⟨"$findById", [⟨"req", .tvar "R", false⟩, ⟨"id", GivenId (.tvar "I"), false⟩], .promise (.tvar "E"), true, ["RecordNotFoundException"]⟩,
   ⟨"$lookBySlug", [⟨"req", .tvar "R", false⟩, ⟨"slug", .union .string (.optionalProps (.tvar "E")), false⟩, ⟨"throwing", .boolean, true⟩], .promise (.tvar "E"), true, ["RecordNotFoundException"]⟩,
   ⟨"$findBySlug", [⟨"req", .tvar "R", false⟩, ⟨"slug", .union .string (.optionalProps (.tvar "E")), false⟩], .promise (.tvar "E"), true, ["RecordNotFoundException"]⟩,
   ⟨"$findByIds", [⟨"req", .tvar "R", false⟩, ⟨"ids", GivenIds (.tvar "I"), false⟩], .promise (.array (.tvar "E")), true, []⟩,
   ⟨"$findMore", [⟨"req", .tvar "R", false⟩, ⟨"filter", .tvar "F", false⟩, ⟨"options", .unknownTy, true⟩], .promise (.array (.tvar "E")), true, []⟩,
   ⟨"$deleteById", [⟨"req", .tvar "R", false⟩, ⟨"id", GivenId (.tvar "I"), false⟩], .promise (.tvar "E"), true, ["RecordNotFoundException"]⟩,
   ⟨"$deleteByIds", [⟨"req", .tvar "R", false⟩, ⟨"ids", GivenIds (.tvar "I"), false⟩], .promise .number, true, []⟩,
   ⟨"$trashById", [⟨"req", .tvar "R", false⟩, ⟨"id", GivenId (.tvar "I"), false⟩, ⟨"trash", .unknownTy, true⟩], .promise (.tvar "E"), true, ["RecordNotFoundException"]⟩,
   ⟨"$trashByIds", [⟨"req", .tvar "R", false⟩, ⟨"ids", GivenIds (.tvar "I"), false⟩, ⟨"trash", .unknownTy, true⟩], .promise .number, true, []⟩]

end ServiceInternal

namespace BaseServiceLike

/-- The inline union `I|Partial<P>|Partial<E>` used throughout
`BaseServiceLike` for ids given in entity or pair format. -/
def givenBase : Ty := .union (.union (.tvar "I") (.optionalProps (.tvar "P"))) (.optionalProps (.tvar "E"))

/-- `interface BaseServiceLike<E, I, N, P, V, C, U, R, F>` (base-service-like
source file lines 30-300), in source order. `deleteById` and `pairsMore`
are the only two non-optional members. -/
def methods : List Method :=
  [⟨"$createOne", [⟨"req", .tvar "R", false⟩, ⟨"dto", .tvar "C", false⟩, ⟨"existingId", givenBase, true⟩], .promise (.tvar "E"), true, []⟩,
   ⟨"createOne", [⟨"req", .tvar "R", false⟩, ⟨"dto", .tvar "C", false⟩], .promise (.tvar "V"), true, []⟩,
   ⟨"$prepareById", [⟨"req", .tvar "R", false⟩, ⟨"id", givenBase, false⟩], .promise (.tvar "E"), true, ["RecordNotFoundException"]⟩,
   ⟨"prepareById", [⟨"req", .tvar "R", false⟩, ⟨"id", .tvar "I", true⟩], .promise (.tvar "V"), true, []⟩,
   ⟨"$updateById", [⟨"req", .tvar "R", false⟩, ⟨"id", givenBase, false⟩, ⟨"dto", .union (.tvar "U") (.optionalProps (.tvar "E")), false⟩], .promise (.tvar "E"), true, ["RecordNotFoundException"]⟩,
   ⟨"updateById", [⟨"req", .tvar "R", false⟩, ⟨"id", .tvar "I", false⟩, ⟨"dto", .tvar "U", false⟩], .promise (.tvar "V"), true, []⟩,
   ⟨"$setById", [⟨"req", .tvar "R", false⟩, ⟨"id", givenBase, false⟩, ⟨"dto", .union (.optionalProps (.tvar "U")) (.optionalProps (.tvar "E")), false⟩], .promise (.tvar "E"), true, ["RecordNotFoundException"]⟩,
   ⟨"setById", [⟨"req", .tvar "R", false⟩, ⟨"id", .tvar "I", false⟩, ⟨"dto", .union (.optionalProps (.tvar "U")) (.optionalProps (.tvar "E")), false⟩], .promise (.tvar "V"), true, []⟩,
   ⟨"$lookById", [⟨"req", .tvar "R", false⟩, ⟨"id", givenBase, false⟩, ⟨"throwing", .boolean, true⟩], .promise (.tvar "E"), true, ["RecordNotFoundException"]⟩,
   ⟨"$findById", [⟨"req", .tvar "R", false⟩, ⟨"id", givenBase, false⟩], .promise (.tvar "E"), true, ["RecordNotFoundException"]⟩,
   ⟨"findById", [⟨"req", .tvar "R", false⟩, ⟨"id", .tvar "I", false⟩], .promise (.tvar "V"), true, []⟩,
   ⟨"$lookBySlug", [⟨"req", .tvar "R", false⟩, ⟨"slug", .union .string (.optionalProps (.tvar "E")), false⟩, ⟨"throwing", .boolean, true⟩], .promise (.tvar "E"), true, ["RecordNotFoundException"]⟩,
   ⟨"$findBySlug", [⟨"req", .tvar "R", false⟩, ⟨"slug", givenBase, false⟩], .promise (.tvar "E"), true, ["RecordNotFoundException"]⟩,
   ⟨"findBySlug", [⟨"req", .tvar "R", false⟩, ⟨"slug", .string, false⟩], .promise (.tvar "V"), true, []⟩,
   ⟨"$findByIds", [⟨"req", .tvar "R", false⟩, ⟨"ids", .array givenBase, false⟩], .promise (.array (.tvar "E")), true, []⟩,
   ⟨"findByIds", [⟨"req", .tvar "R", false⟩, ⟨"ids", .array (.tvar "I"), false⟩], .promise (.array (.tvar "V")), true, []⟩,
   ⟨"$findMore", [⟨"req", .tvar "R", false⟩, ⟨"filter", .tvar "F", false⟩, ⟨"options", .unknownTy, true⟩], .promise (.array (.tvar "E")), true, []⟩,
   ⟨"findMore", [⟨"req", .tvar "R", false⟩, ⟨"filter", .tvar "F", false⟩, ⟨"options", .unknownTy, true⟩], .promise (.array (.tvar "V")), true, []⟩,
   ⟨"$deleteById", [⟨"req", .tvar "R", false⟩, ⟨"id", givenBase, false⟩], .promise (.tvar "E"), true, ["RecordNotFoundException"]⟩,
   ⟨"deleteById", [⟨"req", .tvar "R", false⟩, ⟨"id", .tvar "I", false⟩], .promise (.tvar "P"), false, []⟩,
   ⟨"$deleteByIds", [⟨"req", .tvar "R", false⟩, ⟨"ids", .array givenBase, false⟩], .promise .number, true, []⟩,
   ⟨"deleteByIds", [⟨"req", .tvar "R", false⟩, ⟨"ids", .array (.tvar "I"), false⟩], .promise .number, true, []⟩,
   ⟨"$trashById", [⟨"req", .tvar "R", false⟩, ⟨"id", givenBase, false⟩, ⟨"trash", .unknownTy, true⟩], .promise (.tvar "E"), true, ["RecordNotFoundException"]⟩,
   ⟨"trashById", [⟨"req", .tvar "R", false⟩, ⟨"id", .tvar "I", false⟩, ⟨"trash", .unknownTy, true⟩], .promise (.tvar "P"), true, []⟩,
   ⟨"$trashByIds", [⟨"req", .tvar "R", false⟩, ⟨"ids", .array givenBase, false⟩, ⟨"trash", .unknownTy, true⟩], .promise .number, true, []⟩,
   ⟨"trashByIds", [⟨"req", .tvar "R", false⟩, ⟨"ids", .array (.tvar "I"), false⟩, ⟨"trash", .unknownTy, true⟩], .promise (.tvar "P"), true, []⟩,
   ⟨"toPair", [⟨"req", .tvar "R", false⟩, ⟨"doc", .tvar "E", false⟩, ⟨"variant", .string, true⟩], .promise (.tvar "P"), true, []⟩,
   ⟨"toPairs", [⟨"req", .tvar "R", false⟩, ⟨"docs", .array (.tvar "E"), false⟩, ⟨"variant", .string, true⟩], .promise (.array (.tvar "P")), true, []⟩,
   ⟨"fromPair", [⟨"req", .tvar "R", false⟩, ⟨"pair", .tvar "P", false⟩], .promise (.tvar "E"), true, []⟩,
   ⟨"fromPairs", [⟨"req", .tvar "R", false⟩, ⟨"pairs", .array (.tvar "P"), false⟩], .promise (.array (.tvar "E")), true, []⟩,
   ⟨"pairById", [⟨"req", .tvar "R", false⟩, ⟨"id", .tvar "I", false⟩], .promise (.tvar "P"), true, ["RecordNotFoundException"]⟩,
   ⟨"pairsByIds", [⟨"req", .tvar "R", false⟩, ⟨"ids", .array (.tvar "I"), false⟩], .promise (.array (.tvar "P")), true, []⟩,
   ⟨"pairsMore", [⟨"req", .tvar "R", false⟩, ⟨"query", .union .string .unknownTy, true⟩, ⟨"limit", .number, true⟩], .promise (.array (.tvar "P")), false, []⟩,
   ⟨"toView", [⟨"req", .tvar "R", false⟩, ⟨"doc", .tvar "E", false⟩, ⟨"variant", .string, true⟩], .promise (.tvar "V"), true, []⟩,
   ⟨"toViews", [⟨"req", .tvar "R", false⟩, ⟨"docs", .array (.tvar "E"), false⟩, ⟨"variant", .string, true⟩], .promise (.array (.tvar "V")), true, []⟩]

end BaseServiceLike

/-! ## Top-level declarations of each source file

Every top-level declaration of the package, with its declaration form and
whether it is exported. The package contains only type aliases and
interfaces: no class, no function, no constant, and hence no statement that
could throw or catch. -/

inductive DeclKind where
  | typeAlias : DeclKind
  | interfaceDecl : DeclKind
  | classDecl : DeclKind
  | functionDecl : DeclKind
  | constDecl : DeclKind
deriving DecidableEq, Repr

structure Decl where
  name : String
  kind : DeclKind
  exported : Bool
deriving DecidableEq, Repr

/-- Top-level declarations of `src/index.types.ts`, in source order. -/
def indexTypesDecls : List Decl :=
  [⟨"ID", .typeAlias, true⟩,
   ⟨"DefId", .typeAlias, true⟩,
   ⟨"GivenId", .typeAlias, true⟩,
   ⟨"GivenIds", .typeAlias, true⟩,
   ⟨"NAME", .typeAlias, true⟩,
   ⟨"DefName", .typeAlias, true⟩,
   ⟨"XX", .typeAlias, true⟩,
   ⟨"EntityIdLike", .interfaceDecl, true⟩,
   ⟨"EntityLike", .interfaceDecl, true⟩,
   ⟨"PairLike", .interfaceDecl, true⟩,
   ⟨"RichEntityLike", .interfaceDecl, true⟩,
   ⟨"RepositoryLike", .interfaceDecl, true⟩,
   ⟨"ServiceLike", .typeAlias, true⟩,
   ⟨"ServiceBase", .interfaceDecl, false⟩,
   ⟨"ServicePair", .interfaceDecl, false⟩,
   ⟨"ServiceView", .interfaceDecl, false⟩,
   ⟨"ServiceInternal", .interfaceDecl, false⟩]

/-- Top-level declarations of the `base-*` source files (base-id-like,
base-entity-like, base-pair-like, base-rich-entity-like, base-repo,
base-service-like), in file and source order. -/
def baseFamilyDecls : List Decl :=
  [⟨"BaseIdLike", .interfaceDecl, true⟩,
   ⟨"BaseEntityLike", .interfaceDecl, true⟩,
   ⟨"BasePairLike", .interfaceDecl, true⟩,
   ⟨"BaseRichEntityLike", .interfaceDecl, true⟩,
   ⟨"X", .typeAlias, false⟩,
   ⟨"BaseRepo", .interfaceDecl, true⟩,
   ⟨"RE", .typeAlias, false⟩,
   ⟨"X", .typeAlias, false⟩,
   ⟨"BaseServiceLike", .interfaceDecl, true⟩]

/-- All top-level declarations of the package. -/
def allDecls : List Decl := indexTypesDecls ++ baseFamilyDecls

/-- All method signatures declared by the contracts of the package. -/
def allMethods : List Method :=
  RepositoryLike.methods ++ BaseRepo.methods ++ ServiceBase.methods ++
    ServicePair.methods ++ ServiceView.methods ++ ServiceInternal.methods ++
    BaseServiceLike.methods

/-! ## Derived notions used by the verified properties -/

/-- A method signature whose declared return is a view shape: `Promise<V>`
or `Promise<Array<V>>` (the wording of the service-contract spec). -/
def returnsViewShape (m : Method) : Bool :=
  m.ret = .promise (.tvar "V") || m.ret = .promise (.array (.tvar "V"))

/-- A method signature whose declared return is a raw entity shape:
`Promise<E>` or `Promise<Array<E>>`. -/
def returnsEntityShape (m : Method) : Bool :=
  m.ret = .promise (.tvar "E") || m.ret = .promise (.array (.tvar "E"))

/-- The un-prefixed CRUD member names of the service contracts. -/
def baseCrudNames : List String :=
  ["createOne", "prepareById", "updateById", "setById", "findById",
   "findBySlug", "findByIds", "findMore", "deleteById", "deleteByIds",
   "trashById", "trashByIds"]

/-- Whether a member name carries the internal `$` prefix. -/
def isDollarName (s : String) : Bool :=
  match s.data with
  | [] => false
  | c :: _ => c == '$'

/-- Retype the `slug` parameter of a `findBySlug` signature to `t`; every
other signature is left unchanged. -/
def retypeSlug (t : Ty) (m : Method) : Method :=
  if m.name == "findBySlug" then
    ⟨m.name,
     m.params.map (fun p => if p.name == "slug" then ⟨p.name, t, p.optional⟩ else p),
     m.ret, m.optional, m.throwsDoc⟩
  else m

/-- Every property name declared by some shape of either declaration family
(identity, entity, pair, rich entity). -/
def shapeFieldNames : List String :=
  ["id", "toJSON", "name", "createdAt", "createdBy", "updatedAt",
   "updatedBy", "$version", "$release", "$irregulars", "$trash", "$search"]

/-! ## Helper lemmas -/

theorem lookupField_cons_ne (k key : String) (x : TSVal)
    (kvs : List (String × TSVal)) (h : k ≠ key) :
    lookupField ((k, x) :: kvs) key = lookupField kvs key := by
  simp [lookupField, h]

theorem fieldOk_insert_fresh (f : FieldDecl) (k : String) (x : TSVal)
    (kvs : List (String × TSVal)) (h : f.name ≠ k) :
    fieldOk ((k, x) :: kvs) f = fieldOk kvs f := by
  unfold fieldOk
  rw [lookupField_cons_ne k f.name x kvs (Ne.symm h)]

/-- Conformance to a field catalog is preserved by adding a property whose
key is not declared by the catalog. -/
theorem conformsTo_insert_fresh (fields : List FieldDecl) (k : String)
    (x : TSVal) (kvs : List (String × TSVal))
    (hk : ∀ f ∈ fields, f.name ≠ k)
    (h : conformsTo fields (.obj kvs) = true) :
    conformsTo fields (.obj ((k, x) :: kvs)) = true := by
  simp only [conformsTo, List.all_eq_true] at h ⊢
  intro f hf
  rw [fieldOk_insert_fresh f k x kvs (hk f hf)]
  exact h f hf

/-- Conformance to a concatenated catalog gives conformance to its left part
(an `extends` child conforms to its parent). -/
theorem conformsTo_append_left (A B : List FieldDecl) (v : TSVal)
    (h : conformsTo (A ++ B) v = true) : conformsTo A v = true := by
  cases v <;> simp_all [conformsTo, List.all_append, Bool.and_eq_true]

/-! ## Verified properties of the declared contracts -/

/-- C5: the repository contract (both `RepositoryLike` and `BaseRepo`)
declares exactly the eleven members `createOne`, `updateById`, `setById`,
`findById`, `findBySlug`, `findByIds`, `findMore`, `deleteById`,
`deleteByIds`, `trashById`, `trashByIds`, every one of them optional; in
particular the empty object implements the contract. -/
theorem repositoryLike_catalog_complete_and_optional :
    RepositoryLike.methods.map Method.name =
      ["createOne", "updateById", "setById", "findById", "findBySlug",
       "findByIds", "findMore", "deleteById", "deleteByIds", "trashById",
       "trashByIds"] ∧
    BaseRepo.methods.map Method.name =
      ["createOne", "updateById", "setById", "findById", "findBySlug",
       "findByIds", "findMore", "deleteById", "deleteByIds", "trashById",
       "trashByIds"] ∧
    RepositoryLike.methods.all Method.optional = true ∧
    BaseRepo.methods.all Method.optional = true ∧
    conformsTo (RepositoryLike.methods.map (fun m => ⟨m.name, Ty.fn, m.optional⟩))
      (TSVal.obj []) = true ∧
    conformsTo (BaseRepo.methods.map (fun m => ⟨m.name, Ty.fn, m.optional⟩))
      (TSVal.obj []) = true := by
  decide

/-- C7: the package declares only type aliases and interfaces, none of them
named `RecordNotFoundException`; that name occurs solely in `@throws`
documentation tags of lookup/update/delete signatures, and it is the only
exception name the documentation mentions. -/
theorem recordNotFoundException_documented_never_declared :
    (∀ d ∈ allDecls, d.kind = DeclKind.typeAlias ∨ d.kind = DeclKind.interfaceDecl) ∧
    (∀ d ∈ allDecls, d.name ≠ "RecordNotFoundException") ∧
    (∃ m ∈ allMethods, "RecordNotFoundException" ∈ m.throwsDoc) ∧
    (∀ m ∈ allMethods, ∀ e ∈ m.throwsDoc, e = "RecordNotFoundException") := by
  decide

/-- C2, counterexample: `deleteByIds` is one of the listed base CRUD members
of `ServiceBase`, yet its declared return is `Promise<number>`, not a view
shape; so not every listed member returns `Promise<V>` or
`Promise<Array<V>>`. -/
theorem serviceBase_view_claim_counterexample :
    (∃ m ∈ ServiceBase.methods, m.name = "deleteByIds" ∧
      m.ret = Ty.promise Ty.number ∧ returnsViewShape m = false) ∧
    ¬ (∀ m ∈ ServiceBase.methods, returnsViewShape m = true) := by
  decide

/-- C2 (amended): among the base CRUD members of `ServiceBase` and the
un-prefixed CRUD members of `BaseServiceLike`, exactly `createOne`,
`prepareById`, `updateById`, `setById`, `findById`, `findBySlug`,
`findByIds` and `findMore` return view shapes (`Promise<V>` or
`Promise<Array<V>>`); `deleteById`, `trashById` and `trashByIds` return
`Promise<P>` and `deleteByIds` returns `Promise<number>`. -/
theorem serviceBase_view_returns_classified :
    (ServiceBase.methods.filter (fun m => returnsViewShape m)).map Method.name =
      ["createOne", "prepareById", "updateById", "setById", "findById",
       "findBySlug", "findByIds", "findMore"] ∧
    (ServiceBase.methods.filter (fun m => !returnsViewShape m)).map
        (fun m => (m.name, m.ret)) =
      [("deleteById", Ty.promise (Ty.tvar "P")),
       ("deleteByIds", Ty.promise Ty.number),
       ("trashById", Ty.promise (Ty.tvar "P")),
       ("trashByIds", Ty.promise (Ty.tvar "P"))] ∧
    (BaseServiceLike.methods.filter
        (fun m => baseCrudNames.contains m.name && returnsViewShape m)).map Method.name =
      ["createOne", "prepareById", "updateById", "setById", "findById",
       "findBySlug", "findByIds", "findMore"] ∧
    (BaseServiceLike.methods.filter
        (fun m => baseCrudNames.contains m.name && !returnsViewShape m)).map
        (fun m => (m.name, m.ret)) =
      [("deleteById", Ty.promise (Ty.tvar "P")),
       ("deleteByIds", Ty.promise Ty.number),
       ("trashById", Ty.promise (Ty.tvar "P")),
       ("trashByIds", Ty.promise (Ty.tvar "P"))] := by
  decide

/-- C3, counterexample: `$deleteByIds` is one of the listed dollar-prefixed
members of `ServiceInternal`, yet its declared return is `Promise<number>`,
not a raw entity shape; so not every listed member returns `Promise<E>` or
`Promise<Array<E>>`. -/
theorem serviceInternal_entity_claim_counterexample :
    (∃ m ∈ ServiceInternal.methods, m.name = "$deleteByIds" ∧
      m.ret = Ty.promise Ty.number ∧ returnsEntityShape m = false) ∧
    ¬ (∀ m ∈ ServiceInternal.methods, returnsEntityShape m = true) := by
  decide

/-- C3 (amended): every dollar-prefixed member of `ServiceInternal` returns
`Promise<E>` or `Promise<Array<E>>` except the two bulk operations
`$deleteByIds` and `$trashByIds`, which return `Promise<number>`; the
un-prefixed `BaseServiceLike` mirror classifies identically. -/
theorem serviceInternal_entity_returns_classified :
    (ServiceInternal.methods.filter (fun m => returnsEntityShape m)).map Method.name =
      ["$createOne", "$prepareById", "$updateById", "$setById", "$lookById",
       "$findById", "$lookBySlug", "$findBySlug", "$findByIds", "$findMore",
       "$deleteById", "$trashById"] ∧
    (ServiceInternal.methods.filter (fun m => !returnsEntityShape m)).map
        (fun m => (m.name, m.ret)) =
      [("$deleteByIds", Ty.promise Ty.number),
       ("$trashByIds", Ty.promise Ty.number)] ∧
    (BaseServiceLike.methods.filter
        (fun m => isDollarName m.name && !returnsEntityShape m)).map
        (fun m => (m.name, m.ret)) =
      [("$deleteByIds", Ty.promise Ty.number),
       ("$trashByIds", Ty.promise Ty.number)] := by
  decide

/-- C8, counterexample: the two repository catalogs are not identical; both
declare `findBySlug`, but its `slug` parameter is `string` in
`RepositoryLike` and the generic id type `I` in `BaseRepo`, which is not a
generic-parameter renaming. -/
theorem repo_catalogs_differ_at_findBySlug :
    RepositoryLike.methods ≠ BaseRepo.methods ∧
    RepositoryLike.methods.find? (fun m => m.name == "findBySlug") =
      some ⟨"findBySlug",
            [⟨"req", .tvar "R", false⟩, ⟨"slug", Ty.string, false⟩],
            .promise (.tvar "E"), true, []⟩ ∧
    BaseRepo.methods.find? (fun m => m.name == "findBySlug") =
      some ⟨"findBySlug",
            [⟨"req", .tvar "R", false⟩, ⟨"slug", Ty.tvar "I", false⟩],
            .promise (.tvar "E"), true, []⟩ := by
  decide

/-- C8 (amended): `RepositoryLike` and `BaseRepo` declare the same method
names with identical parameter and return types, except that the `slug`
parameter of `findBySlug` is `string` in `RepositoryLike` and `I` in
`BaseRepo`; retyping that one parameter maps either catalog onto the
other. -/
theorem repo_catalogs_agree_up_to_slug_type :
    BaseRepo.methods.map (retypeSlug Ty.string) = RepositoryLike.methods ∧
    RepositoryLike.methods.map (retypeSlug (Ty.tvar "I")) = BaseRepo.methods ∧
    RepositoryLike.methods.filter (fun m => m.name != "findBySlug") =
      BaseRepo.methods.filter (fun m => m.name != "findBySlug") := by
  decide

/-- A fresh-key insertion preserves conformance to any catalog whose field
names all come from `shapeFieldNames`, provided the key differs from every
name in `shapeFieldNames`. -/
theorem conformsTo_insert_fresh_of_names (fields : List FieldDecl) (k : String)
    (x : TSVal) (kvs : List (String × TSVal))
    (hnames : fields.all (fun f => shapeFieldNames.contains f.name) = true)
    (hk : shapeFieldNames.all (fun n => n != k) = true)
    (h : conformsTo fields (.obj kvs) = true) :
    conformsTo fields (.obj ((k, x) :: kvs)) = true := by
  refine conformsTo_insert_fresh fields k x kvs ?_ h
  intro f hf
  have h1 : shapeFieldNames.contains f.name = true := List.all_eq_true.mp hnames f hf
  have h2 : f.name ∈ shapeFieldNames := by
    simpa using h1
  have h3 := List.all_eq_true.mp hk f.name h2
  simpa using h3

/-- C1, counterexample: the value `{id: "1", name: {en: "Apple"}}` conforms
to `EntityLike<DefId, NAME>` (its name is an internationalized string map,
as `NAME` allows) but does not satisfy `PairLike<DefId>`, whose `name`
member must be a plain string. -/
theorem entity_with_i18n_name_not_pair :
    conformsTo (EntityLike.fields DefId NAME)
      (TSVal.obj [("id", TSVal.str "1"), ("name", TSVal.obj [("en", TSVal.str "Apple")])]) = true ∧
    conformsTo (PairLike.fields DefId)
      (TSVal.obj [("id", TSVal.str "1"), ("name", TSVal.obj [("en", TSVal.str "Apple")])]) = false := by
  decide

/-- C1 (amended): a value conforming to `EntityLike<I, N>` also satisfies
`PairLike<I>` provided its `name` member, when present, is a plain string
(as the pair shape requires); with an internationalized-map name the value
conforms to the entity shape but not to the pair shape. -/
theorem entity_conforms_to_pair_of_plain_name (tyI tyN : Ty)
    (kvs : List (String × TSVal))
    (he : conformsTo (EntityLike.fields tyI tyN) (TSVal.obj kvs) = true)
    (hname : fieldOk kvs ⟨"name", Ty.string, true⟩ = true) :
    conformsTo (PairLike.fields tyI) (TSVal.obj kvs) = true := by
  simp only [EntityLike.fields, PairLike.fields, EntityIdLike.fields, conformsTo,
    List.cons_append, List.nil_append, List.all_cons, List.all_nil,
    Bool.and_true, Bool.and_eq_true] at he ⊢
  exact ⟨he.1, he.2.1, hname⟩

theorem entity_conforms_to_pair_of_plain_name_witness :
    conformsTo (PairLike.fields DefId)
      (TSVal.obj [("id", TSVal.str "1"), ("name", TSVal.str "Apple")]) = true :=
  entity_conforms_to_pair_of_plain_name DefId NAME
    [("id", TSVal.str "1"), ("name", TSVal.str "Apple")] (by decide) (by decide)

/-- C4: the rich entity shape extends the entity shape: its catalog is the
entity catalog (optional `id : I`, optional `toJSON` hook, optional
`name : N`) followed by exactly the nine system members `createdAt`,
`createdBy`, `updatedAt`, `updatedBy`, `$version`, `$release`,
`$irregulars`, `$trash`, `$search`, all optional, and every value
conforming to the rich shape still conforms to the entity shape; the
`BaseRichEntityLike` declaration adds the same nine members to
`BaseEntityLike`. -/
theorem richEntity_retains_entity_fields (tyI tyN : Ty) (v : TSVal)
    (h : conformsTo (RichEntityLike.fields tyI tyN) v = true) :
    EntityLike.fields tyI tyN =
      [⟨"id", tyI, true⟩, ⟨"toJSON", Ty.fn, true⟩, ⟨"name", tyN, true⟩] ∧
    RichEntityLike.fields tyI tyN =
      EntityLike.fields tyI tyN ++
        [⟨"createdAt", Ty.dateTy, true⟩, ⟨"createdBy", Ty.unknownTy, true⟩,
         ⟨"updatedAt", Ty.dateTy, true⟩, ⟨"updatedBy", Ty.unknownTy, true⟩,
         ⟨"$version", Ty.number, true⟩, ⟨"$release", Ty.number, true⟩,
         ⟨"$irregulars", Ty.array Ty.string, true⟩, ⟨"$trash", Ty.unknownTy, true⟩,
         ⟨"$search", Ty.unknownTy, true⟩] ∧
    BaseRichEntityLike.fields tyI tyN =
      BaseEntityLike.fields tyI tyN ++
        [⟨"createdAt", Ty.dateTy, true⟩, ⟨"createdBy", Ty.unknownTy, true⟩,
         ⟨"updatedAt", Ty.dateTy, true⟩, ⟨"updatedBy", Ty.unknownTy, true⟩,
         ⟨"$version", Ty.number, true⟩, ⟨"$release", Ty.number, true⟩,
         ⟨"$irregulars", Ty.array Ty.string, true⟩, ⟨"$trash", Ty.unknownTy, true⟩,
         ⟨"$search", Ty.unknownTy, true⟩] ∧
    (∀ f ∈ RichEntityLike.fields tyI tyN, f.optional = true) ∧
    conformsTo (EntityLike.fields tyI tyN) v = true := by
  refine ⟨rfl, rfl, rfl, ?_, conformsTo_append_left (EntityLike.fields tyI tyN) _ v h⟩
  intro f hf
  simp only [RichEntityLike.fields, EntityLike.fields, EntityIdLike.fields,
    List.cons_append, List.nil_append, List.mem_cons, List.not_mem_nil,
    or_false] at hf
  rcases hf with rfl | rfl | rfl | rfl | rfl | rfl | rfl | rfl | rfl | rfl | rfl | rfl <;> rfl

theorem richEntity_retains_entity_fields_witness :
    conformsTo (EntityLike.fields DefId DefName)
      (TSVal.obj [("id", TSVal.str "e1"), ("name", TSVal.str "Apple"),
        ("createdAt", TSVal.date 0), ("$version", TSVal.num 3)]) = true :=
  (richEntity_retains_entity_fields DefId DefName
    (TSVal.obj [("id", TSVal.str "e1"), ("name", TSVal.str "Apple"),
      ("createdAt", TSVal.date 0), ("$version", TSVal.num 3)])
    (by decide)).2.2.2.2

/-- C6: the pair shape is the identity shape (optional `id : I`, optional
`toJSON` hook) plus a single optional `name` member of plain-string type,
in both declaration families; a value whose `name` property holds an
internationalized map does not conform to either pair shape. -/
theorem pair_name_is_plain_string (tyI : Ty) (kvs m : List (String × TSVal))
    (h : lookupField kvs "name" = some (TSVal.obj m)) :
    PairLike.fields tyI = EntityIdLike.fields tyI ++ [⟨"name", Ty.string, true⟩] ∧
    EntityIdLike.fields tyI = [⟨"id", tyI, true⟩, ⟨"toJSON", Ty.fn, true⟩] ∧
    BasePairLike.fields tyI = BaseIdLike.fields tyI ++ [⟨"name", Ty.string, true⟩] ∧
    (∀ f ∈ PairLike.fields tyI, f.optional = true) ∧
    conformsTo (PairLike.fields tyI) (TSVal.obj kvs) = false ∧
    conformsTo (BasePairLike.fields tyI) (TSVal.obj kvs) = false := by
  have hname : fieldOk kvs ⟨"name", Ty.string, true⟩ = false := by
    simp [fieldOk, h, sats, isUndef]
  refine ⟨rfl, rfl, rfl, ?_, ?_, ?_⟩
  · intro f hf
    simp only [PairLike.fields, EntityIdLike.fields, List.cons_append,
      List.nil_append, List.mem_cons, List.not_mem_nil, or_false] at hf
    rcases hf with rfl | rfl | rfl <;> rfl
  · simp [conformsTo, PairLike.fields, EntityIdLike.fields, hname]
  · simp [conformsTo, BasePairLike.fields, BaseIdLike.fields, hname]

theorem pair_name_is_plain_string_witness :
    conformsTo (PairLike.fields DefId)
      (TSVal.obj [("id", TSVal.num 1), ("name", TSVal.obj [("de", TSVal.str "Apfel")])]) = false :=
  (pair_name_is_plain_string DefId
    [("id", TSVal.num 1), ("name", TSVal.obj [("de", TSVal.str "Apfel")])]
    [("de", TSVal.str "Apfel")] rfl).2.2.2.2.1

/-- C9: `EntityIdLike` extends `Record<string, unknown>` and `BaseIdLike`
extends `Record<string, any>`, and every shape of both families is an open
record: adding a property under any key that is none of the declared shape
member names preserves conformance, for the identity, entity, pair and
rich-entity shapes alike. -/
theorem shapes_accept_additional_properties (tyI tyN : Ty) (k : String)
    (x : TSVal) (kvs : List (String × TSVal))
    (hk : shapeFieldNames.all (fun n => n != k) = true) :
    EntityIdLike.indexSignature = Ty.recordOf Ty.string Ty.unknownTy ∧
    BaseIdLike.indexSignature = Ty.recordOf Ty.string Ty.anyTy ∧
    (conformsTo (EntityIdLike.fields tyI) (TSVal.obj kvs) = true →
      conformsTo (EntityIdLike.fields tyI) (TSVal.obj ((k, x) :: kvs)) = true) ∧
    (conformsTo (EntityLike.fields tyI tyN) (TSVal.obj kvs) = true →
      conformsTo (EntityLike.fields tyI tyN) (TSVal.obj ((k, x) :: kvs)) = true) ∧
    (conformsTo (PairLike.fields tyI) (TSVal.obj kvs) = true →
      conformsTo (PairLike.fields tyI) (TSVal.obj ((k, x) :: kvs)) = true) ∧
    (conformsTo (RichEntityLike.fields tyI tyN) (TSVal.obj kvs) = true →
      conformsTo (RichEntityLike.fields tyI tyN) (TSVal.obj ((k, x) :: kvs)) = true) ∧
    (conformsTo (BaseIdLike.fields tyI) (TSVal.obj kvs) = true →
      conformsTo (BaseIdLike.fields tyI) (TSVal.obj ((k, x) :: kvs)) = true) ∧
    (conformsTo (BaseEntityLike.fields tyI tyN) (TSVal.obj kvs) = true →
      conformsTo (BaseEntityLike.fields tyI tyN) (TSVal.obj ((k, x) :: kvs)) = true) ∧
    (conformsTo (BasePairLike.fields tyI) (TSVal.obj kvs) = true →
      conformsTo (BasePairLike.fields tyI) (TSVal.obj ((k, x) :: kvs)) = true) ∧
    (conformsTo (BaseRichEntityLike.fields tyI tyN) (TSVal.obj kvs) = true →
      conformsTo (BaseRichEntityLike.fields tyI tyN) (TSVal.obj ((k, x) :: kvs)) = true) := by
  refine ⟨rfl, rfl, ?_, ?_, ?_, ?_, ?_, ?_, ?_, ?_⟩ <;>
    exact fun h => conformsTo_insert_fresh_of_names _ k x kvs rfl hk h

theorem shapes_accept_additional_properties_witness :
    conformsTo (EntityLike.fields DefId DefName)
      (TSVal.obj (("extra", TSVal.num 7) :: [("id", TSVal.str "1")])) = true :=
  ((shapes_accept_additional_properties DefId DefName "extra" (TSVal.num 7)
    [("id", TSVal.str "1")] (by decide)).2.2.2.1) (by decide)
